import Mathlib

/-!
A shallow embedding of `src/sqlite3/lib.rs`, a thin Rust wrapper around the
sqlite3 C interface.  The native engine is external to the repository, so it
is modelled as an oracle: a family of response functions indexed by a call
counter (`tick`).  Every native call records itself in an explicit trace and
advances the tick; status-returning calls read `oracle.code tick`, the
error-message, change-count and column-text calls read the corresponding
per-handle response functions.  The wrapper functions of the source are then
translated one-to-one with explicit state passing; the implicit
`sqlite3_finalize` performed by Rust's `Drop for PreparedStatement` is made
explicit at each point where the owned statement goes out of scope.
-/

/-- The `SqlType` trait of the source: conversion of a value to and from the
single textual representation used for parameters and columns. -/
class SqlType (α : Type) where
  to_sql_str : α → String
  from_sql_str : String → Option α

/-- One decimal digit character back to its value; `none` on a non-digit.
Building block of the textual integer parse (`FromStr for int`). -/
def charToDigit (c : Char) : Option Nat :=
  if '0' ≤ c ∧ c ≤ '9' then some (c.toNat - '0'.toNat) else none

/-- Decimal digits of `n`, most significant first, by repeated
division by 10; the fuel argument (any bound on `n`) makes the recursion
structural. -/
def natToDigitsAux : Nat → Nat → List Char
  | 0, _ => []
  | fuel + 1, n =>
    if n = 0 then []
    else natToDigitsAux fuel (n / 10) ++ [Nat.digitChar (n % 10)]

/-- Decimal representation of a natural number, most significant digit
first, as produced by the source's `to_str` on a nonnegative `int`. -/
def natToSqlStr (n : Nat) : String :=
  if n = 0 then "0" else (natToDigitsAux n n).asString

/-- `int::to_str` of the source: decimal representation, with a leading
`-` for negative values. -/
def intToSqlStr (i : Int) : String :=
  if i < 0 then "-" ++ natToSqlStr i.natAbs else natToSqlStr i.natAbs

/-- One step of the decimal parse: shift the accumulator and add the
digit, failing on a non-digit character. -/
def parseStep (acc : Option Nat) (c : Char) : Option Nat :=
  acc.bind (fun a => (charToDigit c).map (fun d => a * 10 + d))

/-- Fold a character list as a decimal number; `none` as soon as one
character is not a digit. -/
def parseDigits (cs : List Char) : Option Nat :=
  cs.foldl parseStep (some 0)

/-- The character-level case split of the textual integer parse. -/
def intFromChars : List Char → Option Int
  | [] => none
  | c :: cs =>
    if c = '-' then
      if cs.isEmpty then none else (parseDigits cs).map (fun n => -(n : Int))
    else (parseDigits (c :: cs)).map (fun n => (n : Int))

/-- `FromStr::from_str` for `int` of the source: an optional leading `-`
followed by a nonempty run of decimal digits; anything else is `none`. -/
def intFromSqlStr (s : String) : Option Int :=
  intFromChars s.data

/-- The `impl SqlType for int` of the source. -/
instance instSqlTypeInt : SqlType Int where
  to_sql_str := intToSqlStr
  from_sql_str := intFromSqlStr

/-- A `@SqlType` trait object: some value of some type implementing
`SqlType`.  Only `to_sql_str` is ever invoked on parameters. -/
structure SqlObj where
  α : Type
  inst : SqlType α
  val : α

/-- Method dispatch `param.to_sql_str()` on a trait object. -/
def SqlObj.to_sql_str (p : SqlObj) : String :=
  p.inst.to_sql_str p.val

/-- One native call into the engine, as recorded in the trace.  Database
and statement handles are plain numbers (`0` plays the role of the null
pointer). -/
inductive EngineCall where
  | close (db : Nat)
  | errmsg (db : Nat)
  | changes (db : Nat)
  | prepare (db : Nat) (sql : String)
  | reset (stmt : Nat)
  | bindText (stmt : Nat) (idx : Nat) (text : String)
  | step (stmt : Nat)
  | columnCount (stmt : Nat)
  | columnText (stmt : Nat) (col : Nat)
  | finalize (stmt : Nat)
  deriving Repr, DecidableEq

/-- The engine's behaviour, scripted: what each native call returns, as a
function of the global call counter (`tick`) and of the handle passed. -/
structure EngineOracle where
  code : Nat → Int
  msg : Nat → Nat → String
  chg : Nat → Nat → Nat
  colCount : Nat → Nat → Nat
  colText : Nat → Nat → Nat → Option String
  newStmt : Nat → Nat

/-- The state threaded through every native call: the (immutable) oracle,
the call counter, and the trace of calls made so far. -/
structure EngineState where
  oracle : EngineOracle
  tick : Nat
  trace : List EngineCall

/-- Record a batch of native calls: the trace grows by `cs` and the tick
advances once per call. -/
def EngineState.records (s : EngineState) (cs : List EngineCall) : EngineState :=
  { s with tick := s.tick + cs.length, trace := s.trace ++ cs }

namespace ffi

def SQLITE_OK : Int := 0
def SQLITE_ROW : Int := 100
def SQLITE_DONE : Int := 101

def sqlite3_close (db : Nat) (s : EngineState) : EngineState × Int :=
  (s.records [.close db], s.oracle.code s.tick)

def sqlite3_errmsg (db : Nat) (s : EngineState) : EngineState × String :=
  (s.records [.errmsg db], s.oracle.msg s.tick db)

def sqlite3_changes (db : Nat) (s : EngineState) : EngineState × Nat :=
  (s.records [.changes db], s.oracle.chg s.tick db)

/-- `sqlite3_prepare_v2`: returns the status code and the statement handle
written through the out-parameter (the engine writes a null handle when
compilation fails). -/
def sqlite3_prepare_v2 (db : Nat) (sql : String) (s : EngineState) :
    EngineState × Int × Nat :=
  (s.records [.prepare db sql], s.oracle.code s.tick,
    if s.oracle.code s.tick = SQLITE_OK then s.oracle.newStmt s.tick else 0)

def sqlite3_reset (stmt : Nat) (s : EngineState) : EngineState × Int :=
  (s.records [.reset stmt], s.oracle.code s.tick)

def sqlite3_bind_text (stmt : Nat) (idx : Nat) (text : String) (s : EngineState) :
    EngineState × Int :=
  (s.records [.bindText stmt idx text], s.oracle.code s.tick)

def sqlite3_step (stmt : Nat) (s : EngineState) : EngineState × Int :=
  (s.records [.step stmt], s.oracle.code s.tick)

def sqlite3_column_count (stmt : Nat) (s : EngineState) : EngineState × Nat :=
  (s.records [.columnCount stmt], s.oracle.colCount s.tick stmt)

/-- `sqlite3_column_text`: `none` models the null pointer returned for an
absent (SQL NULL) column. -/
def sqlite3_column_text (stmt : Nat) (col : Nat) (s : EngineState) :
    EngineState × Option String :=
  (s.records [.columnText stmt col], s.oracle.colText s.tick stmt col)

def sqlite3_finalize (stmt : Nat) (s : EngineState) : EngineState × Int :=
  (s.records [.finalize stmt], s.oracle.code s.tick)

end ffi

/-- `pub struct Connection`: sole owner of one native database handle. -/
structure Connection where
  conn : Nat

/-- `pub struct PreparedStatement`: owns a native statement handle and
borrows its Connection. -/
structure PreparedStatement where
  conn : Connection
  stmt : Nat

/-- `pub struct ResultIterator`: borrows the statement; no state of its
own (the cursor position lives in the native statement). -/
structure ResultIterator where
  stmt : PreparedStatement

/-- `pub struct Row`: an ephemeral view of the statement's current row. -/
structure Row where
  stmt : PreparedStatement

/-- `Connection::get_error`: fetch the connection's current error text. -/
def Connection.get_error (self : Connection) (s : EngineState) : EngineState × String :=
  ffi.sqlite3_errmsg self.conn s

/-- `impl Drop for Connection`: close the handle and `assert!` the status
is `SQLITE_OK`; `none` models the assertion failure (a panic, not a
recoverable error value). -/
def Connection.drop (self : Connection) (s : EngineState) : Option EngineState :=
  let (s1, ret) := ffi.sqlite3_close self.conn s
  if ret = ffi.SQLITE_OK then some s1 else none

/-- `Connection::prepare`: compile `query`; on failure build the error from
the connection's error text.  The owned local statement is dropped on the
failure path, which finalizes the (null) handle. -/
def Connection.prepare (self : Connection) (query : String) (s : EngineState) :
    EngineState × Except String PreparedStatement :=
  let (s1, ret, h) := ffi.sqlite3_prepare_v2 self.conn query s
  if ret = ffi.SQLITE_OK then (s1, .ok ⟨self, h⟩)
  else
    let (s2, e) := Connection.get_error self s1
    let (s3, _) := ffi.sqlite3_finalize h s2
    (s3, .error e)

/-- `PreparedStatement::reset`: the underlying status code is discarded. -/
def PreparedStatement.reset (self : PreparedStatement) (s : EngineState) : EngineState :=
  (ffi.sqlite3_reset self.stmt s).1

/-- The `for params.iter().enumerate()` loop of
`PreparedStatement::bind_params`: bind each parameter's text at position
`idx + 1`, returning the connection's error text on the first failure. -/
def bindLoop (self : PreparedStatement) :
    List SqlObj → Nat → EngineState → EngineState × Except String Unit
  | [], _, s => (s, .ok ())
  | p :: rest, idx, s =>
    let (s1, ret) := ffi.sqlite3_bind_text self.stmt (idx + 1) p.to_sql_str s
    if ret ≠ ffi.SQLITE_OK then
      let (s2, e) := Connection.get_error self.conn s1
      (s2, .error e)
    else bindLoop self rest (idx + 1) s1

/-- `PreparedStatement::bind_params`. -/
def PreparedStatement.bind_params (self : PreparedStatement) (params : List SqlObj)
    (s : EngineState) : EngineState × Except String Unit :=
  bindLoop self params 0 s

/-- `PreparedStatement::update_params`: reset, bind, single step; a step
result of `SQLITE_DONE` or `SQLITE_ROW` yields the connection's change
count, anything else the connection's error text. -/
def PreparedStatement.update_params (self : PreparedStatement) (params : List SqlObj)
    (s : EngineState) : EngineState × Except String Nat :=
  let s0 := PreparedStatement.reset self s
  match PreparedStatement.bind_params self params s0 with
  | (s1, .error e) => (s1, .error e)
  | (s1, .ok _) =>
    let (s2, ret) := ffi.sqlite3_step self.stmt s1
    if ret = ffi.SQLITE_DONE ∨ ret = ffi.SQLITE_ROW then
      let (s3, n) := ffi.sqlite3_changes self.conn.conn s2
      (s3, .ok n)
    else
      let (s3, e) := Connection.get_error self.conn s2
      (s3, .error e)

/-- `PreparedStatement::update`. -/
def PreparedStatement.update (self : PreparedStatement) (s : EngineState) :
    EngineState × Except String Nat :=
  PreparedStatement.update_params self [] s

/-- `PreparedStatement::query_params`: reset, bind, and hand back an
iterator borrowing `self`; no step is taken yet. -/
def PreparedStatement.query_params (self : PreparedStatement) (params : List SqlObj)
    (s : EngineState) : EngineState × Except String ResultIterator :=
  let s0 := PreparedStatement.reset self s
  match PreparedStatement.bind_params self params s0 with
  | (s1, .error e) => (s1, .error e)
  | (s1, .ok _) => (s1, .ok ⟨self⟩)

/-- `PreparedStatement::query`. -/
def PreparedStatement.query (self : PreparedStatement) (s : EngineState) :
    EngineState × Except String ResultIterator :=
  PreparedStatement.query_params self [] s

/-- `Connection::update_params`: `self.prepare(query).chain(|stmt|
stmt.update_params(params))`; the owned statement is dropped (finalized)
when the chain closure returns. -/
def Connection.update_params (self : Connection) (query : String) (params : List SqlObj)
    (s : EngineState) : EngineState × Except String Nat :=
  match Connection.prepare self query s with
  | (s1, .error e) => (s1, .error e)
  | (s1, .ok stmt) =>
    let (s2, r) := PreparedStatement.update_params stmt params s1
    let (s3, _) := ffi.sqlite3_finalize stmt.stmt s2
    (s3, r)

/-- `Connection::update`. -/
def Connection.update (self : Connection) (query : String) (s : EngineState) :
    EngineState × Except String Nat :=
  Connection.update_params self query [] s

/-- `Connection::query_params`: prepare and bind, propagating either error
before `blk` runs; otherwise invoke `blk` with a fresh iterator and wrap
its result in `Ok`.  The owned statement is dropped (finalized) at every
exit of the function body. -/
def Connection.query_params {T : Type} (self : Connection) (query : String)
    (params : List SqlObj) (blk : ResultIterator → EngineState → EngineState × T)
    (s : EngineState) : EngineState × Except String T :=
  match Connection.prepare self query s with
  | (s1, .error e) => (s1, .error e)
  | (s1, .ok stmt) =>
    match PreparedStatement.query_params stmt params s1 with
    | (s2, .error e) =>
      let (s3, _) := ffi.sqlite3_finalize stmt.stmt s2
      (s3, .error e)
    | (s2, .ok it) =>
      let (s3, t) := blk it s2
      let (s4, _) := ffi.sqlite3_finalize stmt.stmt s3
      (s4, .ok t)

/-- `Connection::query`. -/
def Connection.query {T : Type} (self : Connection) (query : String)
    (blk : ResultIterator → EngineState → EngineState × T) (s : EngineState) :
    EngineState × Except String T :=
  Connection.query_params self query [] blk s

/-- `Connection::in_transaction`: `BEGIN` as an update, then the body, then
`COMMIT` or `ROLLBACK` as an update depending on the body's result; that
final update's own result is discarded and the body's result returned. -/
def Connection.in_transaction {T : Type} (self : Connection)
    (blk : Connection → EngineState → EngineState × Except String T)
    (s : EngineState) : EngineState × Except String T :=
  match Connection.update self "BEGIN" s with
  | (s1, .error e) => (s1, .error e)
  | (s1, .ok _) =>
    let (s2, ret) := blk self s1
    let s3 := (match ret with
      | .ok _ => Connection.update self "COMMIT" s2
      | .error _ => Connection.update self "ROLLBACK" s2).1
    (s3, ret)

/-- `ResultIterator::next`: exactly one native step; a row view on
`SQLITE_ROW`, and `None` on every other result code. -/
def ResultIterator.next (self : ResultIterator) (s : EngineState) :
    EngineState × Option Row :=
  let (s1, ret) := ffi.sqlite3_step self.stmt.stmt s
  if ret = ffi.SQLITE_ROW then (s1, some ⟨self.stmt⟩) else (s1, none)

/-- `Row::len`. -/
def Row.len (self : Row) (s : EngineState) : EngineState × Nat :=
  ffi.sqlite3_column_count self.stmt.stmt s

/-- `Row::get`: read the column as text; a null pointer (absent column)
yields `none`, otherwise the text is parsed by the value type. -/
def Row.get {T : Type} [SqlType T] (self : Row) (idx : Nat) (s : EngineState) :
    EngineState × Option T :=
  let (s1, raw) := ffi.sqlite3_column_text self.stmt.stmt idx s
  match raw with
  | none => (s1, none)
  | some txt => (s1, SqlType.from_sql_str txt)

/-- The bind calls `bind_params` is expected to make, starting at loop
index `idx` (bound at engine position `idx + 1`). -/
def bindCallsFrom (self : PreparedStatement) : List SqlObj → Nat → List EngineCall
  | [], _ => []
  | p :: rest, idx =>
    .bindText self.stmt (idx + 1) p.to_sql_str :: bindCallsFrom self rest (idx + 1)

/-- A concrete oracle for test states: status codes given by `f`, the
other responses constant. -/
def oracleWithCode (f : Nat → Int) : EngineOracle where
  code := f
  msg := fun _ _ => "engine error"
  chg := fun _ _ => 1
  colCount := fun _ _ => 1
  colText := fun _ _ _ => none
  newStmt := fun _ => 7

/-- A fresh engine state over `oracleWithCode f`. -/
def stateWithCode (f : Nat → Int) : EngineState :=
  { oracle := oracleWithCode f, tick := 0, trace := [] }

/-- An integer boxed as a `@SqlType` trait object. -/
def mkIntObj (i : Int) : SqlObj :=
  ⟨Int, instSqlTypeInt, i⟩

@[simp] theorem records_oracle (s : EngineState) (cs : List EngineCall) :
    (s.records cs).oracle = s.oracle := rfl

@[simp] theorem records_tick (s : EngineState) (cs : List EngineCall) :
    (s.records cs).tick = s.tick + cs.length := rfl

@[simp] theorem records_trace (s : EngineState) (cs : List EngineCall) :
    (s.records cs).trace = s.trace ++ cs := rfl

@[simp] theorem records_nil (s : EngineState) : s.records [] = s := by
  simp [EngineState.records]

theorem records_records (s : EngineState) (a b : List EngineCall) :
    (s.records a).records b = s.records (a ++ b) := by
  simp [EngineState.records, Nat.add_assoc]

@[simp] theorem bindCallsFrom_length (self : PreparedStatement) :
    ∀ (params : List SqlObj) (idx : Nat),
      (bindCallsFrom self params idx).length = params.length
  | [], _ => rfl
  | _ :: rest, idx => by
    simp [bindCallsFrom, bindCallsFrom_length self rest (idx + 1)]

/-- When every pending bind status is `SQLITE_OK`, the bind loop makes one
`bind_text` call per parameter, in order, and succeeds. -/
theorem bindLoop_ok (self : PreparedStatement) :
    ∀ (params : List SqlObj) (idx : Nat) (s : EngineState),
      (∀ i, i < params.length → s.oracle.code (s.tick + i) = ffi.SQLITE_OK) →
      bindLoop self params idx s = (s.records (bindCallsFrom self params idx), .ok ()) := by
  intro params
  induction params with
  | nil =>
    intro idx s _
    simp [bindLoop, bindCallsFrom]
  | cons p rest ih =>
    intro idx s h
    have h0 : s.oracle.code s.tick = ffi.SQLITE_OK := by
      simpa using h 0 (by simp)
    have hrec := ih (idx + 1) (s.records [.bindText self.stmt (idx + 1) p.to_sql_str])
      (by
        intro i hi
        simp only [records_oracle, records_tick, List.length_cons, List.length_nil]
        rw [show s.tick + 1 + i = s.tick + (i + 1) by omega]
        exact h (i + 1) (by simpa using Nat.succ_lt_succ hi))
    simp [bindLoop, ffi.sqlite3_bind_text, h0, hrec, records_records, bindCallsFrom]

/-- When the `k`-th bind status is the first non-`SQLITE_OK` one, the bind
loop stops right there and returns the connection's current error text. -/
theorem bindLoop_fail (self : PreparedStatement) :
    ∀ (params : List SqlObj) (idx k : Nat) (s : EngineState),
      k < params.length →
      (∀ i, i < k → s.oracle.code (s.tick + i) = ffi.SQLITE_OK) →
      s.oracle.code (s.tick + k) ≠ ffi.SQLITE_OK →
      bindLoop self params idx s =
        (s.records (bindCallsFrom self (params.take (k + 1)) idx ++ [.errmsg self.conn.conn]),
          .error (s.oracle.msg (s.tick + (k + 1)) self.conn.conn)) := by
  intro params
  induction params with
  | nil =>
    intro idx k s hk h1 h2
    simp at hk
  | cons p rest ih =>
    intro idx k s hk h1 h2
    cases k with
    | zero =>
      have h0 : s.oracle.code s.tick ≠ ffi.SQLITE_OK := by simpa using h2
      simp [bindLoop, ffi.sqlite3_bind_text, h0, Connection.get_error, ffi.sqlite3_errmsg,
        bindCallsFrom, records_records]
    | succ k =>
      have h0 : s.oracle.code s.tick = ffi.SQLITE_OK := by
        simpa using h1 0 (by omega)
      have hrec := ih (idx + 1) k (s.records [.bindText self.stmt (idx + 1) p.to_sql_str])
        (by simpa using Nat.lt_of_succ_lt_succ hk)
        (by
          intro i hi
          simp only [records_oracle, records_tick, List.length_cons, List.length_nil]
          rw [show s.tick + 1 + i = s.tick + (i + 1) by omega]
          exact h1 (i + 1) (by omega))
        (by
          simp only [records_oracle, records_tick, List.length_cons, List.length_nil]
          rw [show s.tick + 1 + k = s.tick + (k + 1) by omega]
          exact h2)
      simp only [bindLoop, ffi.sqlite3_bind_text, h0, hrec, records_records]
      simp [bindCallsFrom, records_records, records_tick,
        show s.tick + 1 + (k + 1) = s.tick + (k + 1 + 1) by omega]

/-- C7: `bind_params` converts each parameter to its textual form and binds
it at its 1-based positional index (parameter `i` at engine index `i + 1`);
on the first non-`SQLITE_OK` bind status it stops, makes no further bind
calls, and returns the connection's current error text; if every bind
succeeds it returns success. -/
theorem bind_params_positional_first_error (self : PreparedStatement)
    (params : List SqlObj) (s : EngineState) :
    ((∀ i, i < params.length → s.oracle.code (s.tick + i) = ffi.SQLITE_OK) →
      PreparedStatement.bind_params self params s =
        (s.records (bindCallsFrom self params 0), .ok ())) ∧
    (∀ k, k < params.length →
      (∀ i, i < k → s.oracle.code (s.tick + i) = ffi.SQLITE_OK) →
      s.oracle.code (s.tick + k) ≠ ffi.SQLITE_OK →
      PreparedStatement.bind_params self params s =
        (s.records (bindCallsFrom self (params.take (k + 1)) 0 ++ [.errmsg self.conn.conn]),
          .error (s.oracle.msg (s.tick + (k + 1)) self.conn.conn))) :=
  ⟨fun h => bindLoop_ok self params 0 s h,
    fun k hk h1 h2 => bindLoop_fail self params 0 k s hk h1 h2⟩

/-- Concrete instances of C7: binding `[42, -7]` with all statuses OK makes
both bind calls at positions 1 and 2 with the serialized texts; with the
second bind status failing it stops after the second bind and reports the
engine's error text. -/
theorem bind_params_positional_first_error_witness :
    PreparedStatement.bind_params ⟨⟨5⟩, 7⟩ [mkIntObj 42, mkIntObj (-7)]
        (stateWithCode (fun _ => 0)) =
      ((stateWithCode (fun _ => 0)).records
          [.bindText 7 1 "42", .bindText 7 2 "-7"], .ok ()) ∧
    PreparedStatement.bind_params ⟨⟨5⟩, 7⟩ [mkIntObj 42, mkIntObj (-7)]
        (stateWithCode (fun t => if t = 0 then 0 else 1)) =
      ((stateWithCode (fun t => if t = 0 then 0 else 1)).records
          [.bindText 7 1 "42", .bindText 7 2 "-7", .errmsg 5],
        .error "engine error") := by
  constructor
  · have h := (bind_params_positional_first_error ⟨⟨5⟩, 7⟩ [mkIntObj 42, mkIntObj (-7)]
      (stateWithCode (fun _ => 0))).1 (fun i _ => rfl)
    rw [h]
    rfl
  · have h := (bind_params_positional_first_error ⟨⟨5⟩, 7⟩ [mkIntObj 42, mkIntObj (-7)]
      (stateWithCode (fun t => if t = 0 then 0 else 1))).2 1 (by simp)
      (by
        intro i hi
        have : i = 0 := by omega
        subst this
        rfl)
      (by decide)
    rw [h]
    rfl

@[simp] theorem reset_eq (self : PreparedStatement) (s : EngineState) :
    PreparedStatement.reset self s = s.records [.reset self.stmt] := rfl

@[simp] theorem bind_params_eq (self : PreparedStatement) (params : List SqlObj)
    (s : EngineState) :
    PreparedStatement.bind_params self params s = bindLoop self params 0 s := rfl

/-- `Connection::prepare` when the engine reports `SQLITE_OK`. -/
theorem prepare_ok (self : Connection) (query : String) (s : EngineState)
    (h : s.oracle.code s.tick = ffi.SQLITE_OK) :
    Connection.prepare self query s =
      (s.records [.prepare self.conn query], .ok ⟨self, s.oracle.newStmt s.tick⟩) := by
  simp [Connection.prepare, ffi.sqlite3_prepare_v2, h]

/-- `Connection::prepare` when compilation fails: error text is fetched and
the dropped local statement finalizes the null handle. -/
theorem prepare_fail (self : Connection) (query : String) (s : EngineState)
    (h : s.oracle.code s.tick ≠ ffi.SQLITE_OK) :
    Connection.prepare self query s =
      (s.records [.prepare self.conn query, .errmsg self.conn, .finalize 0],
        .error (s.oracle.msg (s.tick + 1) self.conn)) := by
  simp [Connection.prepare, ffi.sqlite3_prepare_v2, h, Connection.get_error,
    ffi.sqlite3_errmsg, ffi.sqlite3_finalize, records_records]

/-- `PreparedStatement::update_params`, success path: reset, all binds OK,
one step reporting `SQLITE_DONE` or `SQLITE_ROW`, then the connection's
change count. -/
theorem stmt_update_params_ok (self : PreparedStatement) (params : List SqlObj)
    (s : EngineState)
    (hbind : ∀ i, i < params.length → s.oracle.code (s.tick + 1 + i) = ffi.SQLITE_OK)
    (hstep : s.oracle.code (s.tick + 1 + params.length) = ffi.SQLITE_DONE ∨
      s.oracle.code (s.tick + 1 + params.length) = ffi.SQLITE_ROW) :
    PreparedStatement.update_params self params s =
      (s.records (.reset self.stmt :: bindCallsFrom self params 0 ++
          [.step self.stmt, .changes self.conn.conn]),
        .ok (s.oracle.chg (s.tick + 2 + params.length) self.conn.conn)) := by
  have hb := bindLoop_ok self params 0 (s.records [.reset self.stmt])
    (by simpa using hbind)
  simp only [PreparedStatement.update_params, reset_eq, bind_params_eq, hb,
    ffi.sqlite3_step, ffi.sqlite3_changes, records_records, records_oracle, records_tick,
    List.singleton_append, List.length_cons, List.length_append, bindCallsFrom_length]
  rw [show s.tick + (params.length + 1) = s.tick + 1 + params.length by omega,
    if_pos hstep]
  simp [records_records, List.append_assoc, Nat.add_assoc, Nat.add_comm, Nat.add_left_comm]

/-- `PreparedStatement::update_params`, step-failure path: any step result
other than `SQLITE_DONE`/`SQLITE_ROW` yields the connection's error text. -/
theorem stmt_update_params_step_fail (self : PreparedStatement) (params : List SqlObj)
    (s : EngineState)
    (hbind : ∀ i, i < params.length → s.oracle.code (s.tick + 1 + i) = ffi.SQLITE_OK)
    (hstep1 : s.oracle.code (s.tick + 1 + params.length) ≠ ffi.SQLITE_DONE)
    (hstep2 : s.oracle.code (s.tick + 1 + params.length) ≠ ffi.SQLITE_ROW) :
    PreparedStatement.update_params self params s =
      (s.records (.reset self.stmt :: bindCallsFrom self params 0 ++
          [.step self.stmt, .errmsg self.conn.conn]),
        .error (s.oracle.msg (s.tick + 2 + params.length) self.conn.conn)) := by
  have hb := bindLoop_ok self params 0 (s.records [.reset self.stmt])
    (by simpa using hbind)
  simp only [PreparedStatement.update_params, reset_eq, bind_params_eq, hb,
    ffi.sqlite3_step, Connection.get_error, ffi.sqlite3_errmsg, records_records,
    records_oracle, records_tick, List.singleton_append, List.length_cons,
    List.length_append, bindCallsFrom_length]
  rw [show s.tick + (params.length + 1) = s.tick + 1 + params.length by omega,
    if_neg (by simp [hstep1, hstep2])]
  simp [records_records, List.append_assoc, Nat.add_assoc, Nat.add_comm, Nat.add_left_comm]

/-- `PreparedStatement::update_params`, bind-failure path. -/
theorem stmt_update_params_bind_fail (self : PreparedStatement) (params : List SqlObj)
    (s : EngineState) (k : Nat) (hk : k < params.length)
    (h1 : ∀ i, i < k → s.oracle.code (s.tick + 1 + i) = ffi.SQLITE_OK)
    (h2 : s.oracle.code (s.tick + 1 + k) ≠ ffi.SQLITE_OK) :
    PreparedStatement.update_params self params s =
      (s.records (.reset self.stmt ::
          (bindCallsFrom self (params.take (k + 1)) 0 ++ [.errmsg self.conn.conn])),
        .error (s.oracle.msg (s.tick + 2 + k) self.conn.conn)) := by
  have hb := bindLoop_fail self params 0 k (s.records [.reset self.stmt]) hk
    (by simpa using h1) (by simpa using h2)
  simp only [PreparedStatement.update_params, reset_eq, bind_params_eq, hb,
    records_records, records_oracle, records_tick, List.singleton_append,
    List.length_cons, List.length_nil]
  rw [show s.tick + 1 + (k + 1) = s.tick + 2 + k by omega]

/-- C3: in `PreparedStatement::update`/`update_params`, after reset and a
successful bind, a step result of `SQLITE_ROW` (row available) is treated
identically to `SQLITE_DONE`: both yield success carrying the affected-row
count; every other step result code yields an error built from the
connection's current error text. -/
theorem update_step_row_eq_done (self : PreparedStatement) (params : List SqlObj)
    (s : EngineState)
    (hbind : ∀ i, i < params.length → s.oracle.code (s.tick + 1 + i) = ffi.SQLITE_OK) :
    ((s.oracle.code (s.tick + 1 + params.length) = ffi.SQLITE_DONE ∨
      s.oracle.code (s.tick + 1 + params.length) = ffi.SQLITE_ROW) →
      PreparedStatement.update_params self params s =
        (s.records (.reset self.stmt :: bindCallsFrom self params 0 ++
            [.step self.stmt, .changes self.conn.conn]),
          .ok (s.oracle.chg (s.tick + 2 + params.length) self.conn.conn))) ∧
    (s.oracle.code (s.tick + 1 + params.length) ≠ ffi.SQLITE_DONE →
      s.oracle.code (s.tick + 1 + params.length) ≠ ffi.SQLITE_ROW →
      PreparedStatement.update_params self params s =
        (s.records (.reset self.stmt :: bindCallsFrom self params 0 ++
            [.step self.stmt, .errmsg self.conn.conn]),
          .error (s.oracle.msg (s.tick + 2 + params.length) self.conn.conn))) :=
  ⟨fun hstep => stmt_update_params_ok self params s hbind hstep,
    fun h1 h2 => stmt_update_params_step_fail self params s hbind h1 h2⟩

/-- Concrete instances of C3: with the single step reporting `SQLITE_ROW`
the update succeeds with the change count, exactly as for `SQLITE_DONE`;
with an unrecognized step code it reports the engine's error text. -/
theorem update_step_row_eq_done_witness :
    PreparedStatement.update_params ⟨⟨5⟩, 7⟩ [mkIntObj 42]
        (stateWithCode (fun t => if t = 2 then 100 else 0)) =
      ((stateWithCode (fun t => if t = 2 then 100 else 0)).records
          [.reset 7, .bindText 7 1 "42", .step 7, .changes 5], .ok 1) ∧
    PreparedStatement.update_params ⟨⟨5⟩, 7⟩ [mkIntObj 42]
        (stateWithCode (fun t => if t = 2 then 7 else 0)) =
      ((stateWithCode (fun t => if t = 2 then 7 else 0)).records
          [.reset 7, .bindText 7 1 "42", .step 7, .errmsg 5],
        .error "engine error") := by
  constructor
  · have h := (update_step_row_eq_done ⟨⟨5⟩, 7⟩ [mkIntObj 42]
      (stateWithCode (fun t => if t = 2 then 100 else 0))
      (by
        intro i hi
        have : i = 0 := by simpa using hi
        subst this
        rfl)).1 (Or.inr rfl)
    rw [h]
    rfl
  · have h := (update_step_row_eq_done ⟨⟨5⟩, 7⟩ [mkIntObj 42]
      (stateWithCode (fun t => if t = 2 then 7 else 0))
      (by
        intro i hi
        have : i = 0 := by simpa using hi
        subst this
        rfl)).2 (by decide) (by decide)
    rw [h]
    rfl

/-- C2: `Connection::update_params` prepares, binds, executes one step,
and on success returns the change count read from the connection's handle
(`sqlite3_changes(self.conn.conn)`), not from the statement; it returns an
error whenever prepare, a bind, or the step fails. -/
theorem update_params_conn_changes (self : Connection) (query : String)
    (params : List SqlObj) (s : EngineState) :
    (s.oracle.code s.tick = ffi.SQLITE_OK →
      (∀ i, i < params.length → s.oracle.code (s.tick + 2 + i) = ffi.SQLITE_OK) →
      (s.oracle.code (s.tick + 2 + params.length) = ffi.SQLITE_DONE ∨
        s.oracle.code (s.tick + 2 + params.length) = ffi.SQLITE_ROW) →
      Connection.update_params self query params s =
        (s.records (.prepare self.conn query :: .reset (s.oracle.newStmt s.tick) ::
            bindCallsFrom ⟨self, s.oracle.newStmt s.tick⟩ params 0 ++
            [.step (s.oracle.newStmt s.tick), .changes self.conn,
              .finalize (s.oracle.newStmt s.tick)]),
          .ok (s.oracle.chg (s.tick + 3 + params.length) self.conn))) ∧
    (s.oracle.code s.tick ≠ ffi.SQLITE_OK →
      Connection.update_params self query params s =
        (s.records [.prepare self.conn query, .errmsg self.conn, .finalize 0],
          .error (s.oracle.msg (s.tick + 1) self.conn))) ∧
    (s.oracle.code s.tick = ffi.SQLITE_OK →
      ∀ k, k < params.length →
      (∀ i, i < k → s.oracle.code (s.tick + 2 + i) = ffi.SQLITE_OK) →
      s.oracle.code (s.tick + 2 + k) ≠ ffi.SQLITE_OK →
      (Connection.update_params self query params s).2 =
        .error (s.oracle.msg (s.tick + 3 + k) self.conn)) ∧
    (s.oracle.code s.tick = ffi.SQLITE_OK →
      (∀ i, i < params.length → s.oracle.code (s.tick + 2 + i) = ffi.SQLITE_OK) →
      s.oracle.code (s.tick + 2 + params.length) ≠ ffi.SQLITE_DONE →
      s.oracle.code (s.tick + 2 + params.length) ≠ ffi.SQLITE_ROW →
      (Connection.update_params self query params s).2 =
        .error (s.oracle.msg (s.tick + 3 + params.length) self.conn)) := by
  refine ⟨?_, ?_, ?_, ?_⟩
  · intro hprep hbind hstep
    have hstmt := stmt_update_params_ok ⟨self, s.oracle.newStmt s.tick⟩ params
      (s.records [.prepare self.conn query])
      (by
        intro i hi
        simp only [records_oracle, records_tick, List.length_cons, List.length_nil]
        rw [show s.tick + (0 + 1) + 1 + i = s.tick + 2 + i by omega]
        exact hbind i hi)
      (by
        simp only [records_oracle, records_tick, List.length_cons, List.length_nil]
        rw [show s.tick + (0 + 1) + 1 + params.length = s.tick + 2 + params.length by omega]
        exact hstep)
    simp only [Connection.update_params, prepare_ok self query s hprep, hstmt,
      ffi.sqlite3_finalize, records_records, records_oracle, records_tick,
      List.length_cons, List.length_nil]
    simp [records_records, List.append_assoc, Nat.add_assoc, Nat.add_comm, Nat.add_left_comm]
  · intro hprep
    simp only [Connection.update_params, prepare_fail self query s hprep]
  · intro hprep k hk h1 h2
    have hstmt := stmt_update_params_bind_fail ⟨self, s.oracle.newStmt s.tick⟩ params
      (s.records [.prepare self.conn query]) k hk
      (by
        intro i hi
        simp only [records_oracle, records_tick, List.length_cons, List.length_nil]
        rw [show s.tick + (0 + 1) + 1 + i = s.tick + 2 + i by omega]
        exact h1 i hi)
      (by
        simp only [records_oracle, records_tick, List.length_cons, List.length_nil]
        rw [show s.tick + (0 + 1) + 1 + k = s.tick + 2 + k by omega]
        exact h2)
    simp only [Connection.update_params, prepare_ok self query s hprep, hstmt,
      ffi.sqlite3_finalize, records_oracle, records_tick, List.length_cons, List.length_nil]
  · intro hprep hbind hstep1 hstep2
    have hstmt := stmt_update_params_step_fail ⟨self, s.oracle.newStmt s.tick⟩ params
      (s.records [.prepare self.conn query])
      (by
        intro i hi
        simp only [records_oracle, records_tick, List.length_cons, List.length_nil]
        rw [show s.tick + (0 + 1) + 1 + i = s.tick + 2 + i by omega]
        exact hbind i hi)
      (by
        simp only [records_oracle, records_tick, List.length_cons, List.length_nil]
        rw [show s.tick + (0 + 1) + 1 + params.length = s.tick + 2 + params.length by omega]
        exact hstep1)
      (by
        simp only [records_oracle, records_tick, List.length_cons, List.length_nil]
        rw [show s.tick + (0 + 1) + 1 + params.length = s.tick + 2 + params.length by omega]
        exact hstep2)
    simp only [Connection.update_params, prepare_ok self query s hprep, hstmt,
      ffi.sqlite3_finalize, records_oracle, records_tick, List.length_cons, List.length_nil]

/-- Concrete instances of C2: a one-parameter update whose step reports
`SQLITE_DONE` returns the connection-level change count; a failing prepare
returns the engine's error text. -/
theorem update_params_conn_changes_witness :
    Connection.update_params ⟨5⟩ "INSERT INTO t VALUES (?1)" [mkIntObj 42]
        (stateWithCode (fun t => if t = 3 then 101 else 0)) =
      ((stateWithCode (fun t => if t = 3 then 101 else 0)).records
          [.prepare 5 "INSERT INTO t VALUES (?1)", .reset 7, .bindText 7 1 "42",
            .step 7, .changes 5, .finalize 7],
        .ok 1) ∧
    Connection.update_params ⟨5⟩ "INSERT INTO t VALUES (?1)" [mkIntObj 42]
        (stateWithCode (fun _ => 1)) =
      ((stateWithCode (fun _ => 1)).records
          [.prepare 5 "INSERT INTO t VALUES (?1)", .errmsg 5, .finalize 0],
        .error "engine error") := by
  constructor
  · have h := (update_params_conn_changes ⟨5⟩ "INSERT INTO t VALUES (?1)" [mkIntObj 42]
      (stateWithCode (fun t => if t = 3 then 101 else 0))).1 rfl
      (by
        intro i hi
        have : i = 0 := by simpa using hi
        subst this
        rfl)
      (Or.inl rfl)
    rw [h]
    rfl
  · have h := (update_params_conn_changes ⟨5⟩ "INSERT INTO t VALUES (?1)" [mkIntObj 42]
      (stateWithCode (fun _ => 1))).2.1 (by decide)
    rw [h]
    rfl

/-- `PreparedStatement::query_params`, success path: reset, all binds OK,
and a fresh iterator over `self`; no step is taken. -/
theorem stmt_query_params_ok (self : PreparedStatement) (params : List SqlObj)
    (s : EngineState)
    (hbind : ∀ i, i < params.length → s.oracle.code (s.tick + 1 + i) = ffi.SQLITE_OK) :
    PreparedStatement.query_params self params s =
      (s.records (.reset self.stmt :: bindCallsFrom self params 0), .ok ⟨self⟩) := by
  have hb := bindLoop_ok self params 0 (s.records [.reset self.stmt])
    (by simpa using hbind)
  simp only [PreparedStatement.query_params, reset_eq, bind_params_eq, hb, records_records]
  simp

/-- `PreparedStatement::query_params`, bind-failure path. -/
theorem stmt_query_params_bind_fail (self : PreparedStatement) (params : List SqlObj)
    (s : EngineState) (k : Nat) (hk : k < params.length)
    (h1 : ∀ i, i < k → s.oracle.code (s.tick + 1 + i) = ffi.SQLITE_OK)
    (h2 : s.oracle.code (s.tick + 1 + k) ≠ ffi.SQLITE_OK) :
    PreparedStatement.query_params self params s =
      (s.records (.reset self.stmt ::
          (bindCallsFrom self (params.take (k + 1)) 0 ++ [.errmsg self.conn.conn])),
        .error (s.oracle.msg (s.tick + 2 + k) self.conn.conn)) := by
  have hb := bindLoop_fail self params 0 k (s.records [.reset self.stmt]) hk
    (by simpa using h1) (by simpa using h2)
  simp only [PreparedStatement.query_params, reset_eq, bind_params_eq, hb,
    records_records, records_oracle, records_tick, List.length_cons, List.length_nil]
  rw [show s.tick + 1 + (k + 1) = s.tick + 2 + k by omega]
  simp [records_records]

/-- C4: `Connection::query_params` returns any prepare or bind error with
the body never invoked (the result does not depend on `blk` at all); when
prepare and all binds succeed it invokes `blk` exactly once, on the
post-bind state, with a fresh iterator over the prepared statement, and
returns `blk`'s value wrapped in success. -/
theorem query_params_body_once {T : Type} (self : Connection) (query : String)
    (params : List SqlObj) (blk : ResultIterator → EngineState → EngineState × T)
    (s : EngineState) :
    (s.oracle.code s.tick ≠ ffi.SQLITE_OK →
      Connection.query_params self query params blk s =
        (s.records [.prepare self.conn query, .errmsg self.conn, .finalize 0],
          .error (s.oracle.msg (s.tick + 1) self.conn))) ∧
    (s.oracle.code s.tick = ffi.SQLITE_OK →
      ∀ k, k < params.length →
      (∀ i, i < k → s.oracle.code (s.tick + 2 + i) = ffi.SQLITE_OK) →
      s.oracle.code (s.tick + 2 + k) ≠ ffi.SQLITE_OK →
      Connection.query_params self query params blk s =
        (s.records (.prepare self.conn query :: .reset (s.oracle.newStmt s.tick) ::
            (bindCallsFrom ⟨self, s.oracle.newStmt s.tick⟩ (params.take (k + 1)) 0 ++
              [.errmsg self.conn, .finalize (s.oracle.newStmt s.tick)])),
          .error (s.oracle.msg (s.tick + 3 + k) self.conn))) ∧
    (s.oracle.code s.tick = ffi.SQLITE_OK →
      (∀ i, i < params.length → s.oracle.code (s.tick + 2 + i) = ffi.SQLITE_OK) →
      Connection.query_params self query params blk s =
        ((ffi.sqlite3_finalize (s.oracle.newStmt s.tick)
            (blk ⟨⟨self, s.oracle.newStmt s.tick⟩⟩
              (s.records (.prepare self.conn query :: .reset (s.oracle.newStmt s.tick) ::
                bindCallsFrom ⟨self, s.oracle.newStmt s.tick⟩ params 0))).1).1,
          .ok (blk ⟨⟨self, s.oracle.newStmt s.tick⟩⟩
            (s.records (.prepare self.conn query :: .reset (s.oracle.newStmt s.tick) ::
              bindCallsFrom ⟨self, s.oracle.newStmt s.tick⟩ params 0))).2)) := by
  refine ⟨?_, ?_, ?_⟩
  · intro hprep
    simp only [Connection.query_params, prepare_fail self query s hprep]
  · intro hprep k hk h1 h2
    have hstmt := stmt_query_params_bind_fail ⟨self, s.oracle.newStmt s.tick⟩ params
      (s.records [.prepare self.conn query]) k hk
      (by
        intro i hi
        simp only [records_oracle, records_tick, List.length_cons, List.length_nil]
        rw [show s.tick + (0 + 1) + 1 + i = s.tick + 2 + i by omega]
        exact h1 i hi)
      (by
        simp only [records_oracle, records_tick, List.length_cons, List.length_nil]
        rw [show s.tick + (0 + 1) + 1 + k = s.tick + 2 + k by omega]
        exact h2)
    simp only [Connection.query_params, prepare_ok self query s hprep, hstmt,
      ffi.sqlite3_finalize, records_records, records_oracle, records_tick,
      List.length_cons, List.length_nil]
    simp [records_records, List.append_assoc, Nat.add_assoc, Nat.add_comm, Nat.add_left_comm]
  · intro hprep hbind
    have hstmt := stmt_query_params_ok ⟨self, s.oracle.newStmt s.tick⟩ params
      (s.records [.prepare self.conn query])
      (by
        intro i hi
        simp only [records_oracle, records_tick, List.length_cons, List.length_nil]
        rw [show s.tick + (0 + 1) + 1 + i = s.tick + 2 + i by omega]
        exact hbind i hi)
    simp only [Connection.query_params, prepare_ok self query s hprep, hstmt,
      records_records, List.singleton_append, List.cons_append, List.nil_append]

/-- Concrete instances of C4: with prepare and binds succeeding, the body
runs once on the post-bind state and its value is wrapped in success; with
a failing prepare the error is returned and the body never runs. -/
theorem query_params_body_once_witness :
    Connection.query_params ⟨5⟩ "SELECT a FROM t" []
        (fun _ s => (s, (42 : Nat))) (stateWithCode (fun _ => 0)) =
      ((stateWithCode (fun _ => 0)).records
          [.prepare 5 "SELECT a FROM t", .reset 7, .finalize 7], .ok 42) ∧
    Connection.query_params ⟨5⟩ "SELECT a FROM t" []
        (fun _ s => (s, (42 : Nat))) (stateWithCode (fun _ => 1)) =
      ((stateWithCode (fun _ => 1)).records
          [.prepare 5 "SELECT a FROM t", .errmsg 5, .finalize 0],
        .error "engine error") := by
  constructor
  · have h := (query_params_body_once ⟨5⟩ "SELECT a FROM t" []
      (fun _ s => (s, (42 : Nat))) (stateWithCode (fun _ => 0))).2.2 rfl
      (by intro i hi; simp at hi)
    rw [h]
    rfl
  · have h := (query_params_body_once ⟨5⟩ "SELECT a FROM t" []
      (fun _ s => (s, (42 : Nat))) (stateWithCode (fun _ => 1))).1 (by decide)
    rw [h]
    rfl

/-- C1: when the initial `BEGIN` update succeeds, `in_transaction` invokes
the body exactly once on the post-`BEGIN` state, then issues `COMMIT` as an
update if the body succeeded and `ROLLBACK` if it failed, and returns the
body's original result unchanged — the final update's own result is
discarded (only its state survives), so a failing COMMIT/ROLLBACK changes
nothing in the returned value. -/
theorem in_transaction_wraps_body {T : Type} (self : Connection)
    (blk : Connection → EngineState → EngineState × Except String T)
    (s s1 : EngineState) (m : Nat)
    (hbegin : Connection.update self "BEGIN" s = (s1, .ok m)) :
    Connection.in_transaction self blk s =
      ((match (blk self s1).2 with
        | .ok _ => Connection.update self "COMMIT" (blk self s1).1
        | .error _ => Connection.update self "ROLLBACK" (blk self s1).1).1,
        (blk self s1).2) := by
  simp only [Connection.in_transaction, hbegin]

/-- Concrete instance of C1: a successful body is committed and its result
returned even though the `COMMIT` update itself fails (its prepare is
rejected); the trace shows BEGIN's statement cycle, then the failed COMMIT
attempt, and the result is still the body's `Ok 42`. -/
theorem in_transaction_wraps_body_witness :
    Connection.in_transaction ⟨5⟩ (fun _ s => (s, .ok (42 : Nat)))
        (stateWithCode (fun t => if t = 2 then 101 else if t ≤ 4 then 0 else 1)) =
      ((stateWithCode (fun t => if t = 2 then 101 else if t ≤ 4 then 0 else 1)).records
          [.prepare 5 "BEGIN", .reset 7, .step 7, .changes 5, .finalize 7,
            .prepare 5 "COMMIT", .errmsg 5, .finalize 0],
        .ok 42) := by
  have h := in_transaction_wraps_body ⟨5⟩ (fun _ s => (s, .ok (42 : Nat)))
    (stateWithCode (fun t => if t = 2 then 101 else if t ≤ 4 then 0 else 1))
    ((stateWithCode (fun t => if t = 2 then 101 else if t ≤ 4 then 0 else 1)).records
      [.prepare 5 "BEGIN", .reset 7, .step 7, .changes 5, .finalize 7]) 1 rfl
  rw [h]
  rfl

/-- C10: when the initial `BEGIN` update fails, `in_transaction` returns
that error and that state unchanged: the body is never invoked (the result
does not depend on `blk`) and no `COMMIT`/`ROLLBACK` update is issued (the
state is exactly the post-`BEGIN` one). -/
theorem in_transaction_begin_fail_short_circuit {T : Type} (self : Connection)
    (blk : Connection → EngineState → EngineState × Except String T)
    (s s1 : EngineState) (e : String)
    (hbegin : Connection.update self "BEGIN" s = (s1, .error e)) :
    Connection.in_transaction self blk s = (s1, .error e) := by
  simp only [Connection.in_transaction, hbegin]

/-- Concrete instance of C10: with the engine rejecting the `BEGIN`
prepare, `in_transaction` returns the engine's error with only BEGIN's
calls in the trace; the body (which would return `Ok 0`) never runs. -/
theorem in_transaction_begin_fail_short_circuit_witness :
    Connection.in_transaction ⟨5⟩ (fun _ s => (s, .ok (0 : Nat)))
        (stateWithCode (fun _ => 1)) =
      ((stateWithCode (fun _ => 1)).records [.prepare 5 "BEGIN", .errmsg 5, .finalize 0],
        .error "engine error") :=
  in_transaction_begin_fail_short_circuit ⟨5⟩ (fun _ s => (s, .ok (0 : Nat)))
    (stateWithCode (fun _ => 1))
    ((stateWithCode (fun _ => 1)).records [.prepare 5 "BEGIN", .errmsg 5, .finalize 0])
    "engine error" rfl

/-- C5: each `ResultIterator::next` call performs exactly one native step
(the trace grows by exactly that one call) and yields a `Row` view when the
step reports `SQLITE_ROW`, and `none` for every other result code — a
mid-iteration error code collapses to end-of-sequence. -/
theorem result_iterator_next_single_step (it : ResultIterator) (s : EngineState) :
    ResultIterator.next it s =
      (s.records [.step it.stmt.stmt],
        if s.oracle.code s.tick = ffi.SQLITE_ROW then some ⟨it.stmt⟩ else none) := by
  simp only [ResultIterator.next, ffi.sqlite3_step]
  by_cases h : s.oracle.code s.tick = ffi.SQLITE_ROW <;> simp [h]

/-- C6: `Row::get` reads the column as text at the statement's current
position; a null (absent) column yields `none`, and otherwise the result is
whatever the value type's textual parse returns — `none` again if the text
fails to parse, the parsed value otherwise.  No error and no default value
can be produced. -/
theorem row_get_text_parse {T : Type} [SqlType T] (self : Row) (idx : Nat)
    (s : EngineState) :
    Row.get (T := T) self idx s =
      (s.records [.columnText self.stmt.stmt idx],
        (s.oracle.colText s.tick self.stmt.stmt idx).bind
          (fun txt => SqlType.from_sql_str txt)) := by
  simp only [Row.get, ffi.sqlite3_column_text]
  cases h : s.oracle.colText s.tick self.stmt.stmt idx <;> simp [h]

/-- C9: destroying a `Connection` invokes the native close exactly once on
its handle (the trace grows by exactly that call) and asserts success: a
non-`SQLITE_OK` close status is an assertion failure (`none`, a panic),
never a recoverable error value. -/
theorem connection_drop_close_assert (self : Connection) (s : EngineState) :
    (s.oracle.code s.tick = ffi.SQLITE_OK →
      Connection.drop self s = some (s.records [.close self.conn])) ∧
    (s.oracle.code s.tick ≠ ffi.SQLITE_OK → Connection.drop self s = none) := by
  constructor <;> intro h <;> simp [Connection.drop, ffi.sqlite3_close, h]

/-- Concrete instances of C9: a successful close yields the state extended
by the single close call; a failing close is an assertion failure. -/
theorem connection_drop_close_assert_witness :
    Connection.drop ⟨5⟩ (stateWithCode (fun _ => 0)) =
      some ((stateWithCode (fun _ => 0)).records [.close 5]) ∧
    Connection.drop ⟨5⟩ (stateWithCode (fun _ => 1)) = none :=
  ⟨(connection_drop_close_assert ⟨5⟩ (stateWithCode (fun _ => 0))).1 rfl,
    (connection_drop_close_assert ⟨5⟩ (stateWithCode (fun _ => 1))).2 (by decide)⟩

/-- `charToDigit` inverts `Nat.digitChar` on decimal digits. -/
theorem charToDigit_digitChar (d : Nat) (h : d < 10) :
    charToDigit (Nat.digitChar d) = some d := by
  interval_cases d <;> decide

/-- Decimal digit characters are never the minus sign. -/
theorem digitChar_ne_dash (d : Nat) (h : d < 10) : Nat.digitChar d ≠ '-' := by
  interval_cases d <;> decide

/-- Folding the decimal parse over the serializer's digit output recovers
the number (with the accumulator shifted past it). -/
theorem foldl_parseStep_natToDigitsAux :
    ∀ (fuel n a : Nat), n ≤ fuel →
      List.foldl parseStep (some a) (natToDigitsAux fuel n) =
        some (a * 10 ^ (natToDigitsAux fuel n).length + n) := by
  intro fuel
  induction fuel with
  | zero =>
    intro n a h
    have hn : n = 0 := by omega
    subst hn
    simp [natToDigitsAux]
  | succ fuel ih =>
    intro n a h
    by_cases h0 : n = 0
    · subst h0
      simp [natToDigitsAux]
    · have hdiv : n / 10 ≤ fuel := by
        have h1 := Nat.div_lt_self (Nat.pos_of_ne_zero h0) (by norm_num : 1 < 10)
        omega
      have hmod : n % 10 < 10 := Nat.mod_lt _ (by norm_num)
      simp only [natToDigitsAux, if_neg h0, List.foldl_append, List.foldl_cons,
        List.foldl_nil, ih (n / 10) a hdiv, List.length_append, List.length_cons,
        List.length_nil]
      have hstep : parseStep
          (some (a * 10 ^ (natToDigitsAux fuel (n / 10)).length + n / 10))
          (Nat.digitChar (n % 10)) =
          some ((a * 10 ^ (natToDigitsAux fuel (n / 10)).length + n / 10) * 10 + n % 10) := by
        simp [parseStep, charToDigit_digitChar _ hmod]
      rw [hstep]
      congr 1
      have hdm := Nat.div_add_mod n 10
      calc (a * 10 ^ (natToDigitsAux fuel (n / 10)).length + n / 10) * 10 + n % 10
          = a * (10 ^ (natToDigitsAux fuel (n / 10)).length * 10) +
            (10 * (n / 10) + n % 10) := by ring
        _ = a * 10 ^ ((natToDigitsAux fuel (n / 10)).length + 1) + n := by
            rw [hdm, pow_succ]

/-- Every character the serializer emits is a decimal digit character. -/
theorem mem_natToDigitsAux :
    ∀ (fuel n : Nat) (c : Char), c ∈ natToDigitsAux fuel n →
      ∃ d, d < 10 ∧ c = Nat.digitChar d := by
  intro fuel
  induction fuel with
  | zero =>
    intro n c hc
    simp [natToDigitsAux] at hc
  | succ fuel ih =>
    intro n c hc
    by_cases h0 : n = 0
    · subst h0
      simp [natToDigitsAux] at hc
    · simp only [natToDigitsAux, if_neg h0, List.mem_append, List.mem_singleton] at hc
      rcases hc with hc | hc
      · exact ih _ _ hc
      · exact ⟨n % 10, Nat.mod_lt _ (by norm_num), hc⟩

/-- The serializer emits at least one digit for a nonzero number. -/
theorem natToDigitsAux_ne_nil (fuel n : Nat) (h0 : n ≠ 0) (hf : n ≤ fuel) :
    natToDigitsAux fuel n ≠ [] := by
  cases fuel with
  | zero => omega
  | succ fuel => simp [natToDigitsAux, h0]

/-- Parsing the decimal representation of any natural number recovers it. -/
theorem parseDigits_natToSqlStr (n : Nat) :
    parseDigits ((natToSqlStr n).data) = some n := by
  by_cases h0 : n = 0
  · subst h0
    decide
  · rw [natToSqlStr, if_neg h0]
    have hdata : ((natToDigitsAux n n).asString).data = natToDigitsAux n n := rfl
    rw [hdata]
    have h := foldl_parseStep_natToDigitsAux n n 0 le_rfl
    simpa [parseDigits] using h

/-- C8: serializing a value of the `SqlType` instance for `int` with
`to_sql_str` and parsing the resulting string back with `from_sql_str`
yields the original value, for every integer. -/
theorem sql_int_roundtrip (i : Int) :
    (SqlType.from_sql_str (SqlType.to_sql_str i) : Option Int) = some i := by
  show intFromSqlStr (intToSqlStr i) = some i
  rcases lt_or_ge i 0 with hneg | hpos
  · have hne : i.natAbs ≠ 0 := by omega
    rw [intToSqlStr, if_pos hneg, intFromSqlStr]
    have hdata : ("-" ++ natToSqlStr i.natAbs).data = '-' :: (natToSqlStr i.natAbs).data := rfl
    rw [hdata]
    have hnil : (natToSqlStr i.natAbs).data ≠ [] := by
      rw [natToSqlStr, if_neg hne]
      exact natToDigitsAux_ne_nil _ _ hne le_rfl
    rcases hl : (natToSqlStr i.natAbs).data with _ | ⟨c, cs⟩
    · exact absurd hl hnil
    · show (parseDigits (c :: cs)).map (fun n => -(n : Int)) = some i
      rw [← hl, parseDigits_natToSqlStr]
      show some (-((i.natAbs : Nat) : Int)) = some i
      have hv : -((i.natAbs : Nat) : Int) = i := by omega
      rw [hv]
  · rw [intToSqlStr, if_neg (not_lt.mpr hpos), intFromSqlStr]
    by_cases h0 : i.natAbs = 0
    · have hi : i = 0 := by omega
      rw [h0, hi]
      decide
    · have hnil : (natToSqlStr i.natAbs).data ≠ [] := by
        rw [natToSqlStr, if_neg h0]
        exact natToDigitsAux_ne_nil _ _ h0 le_rfl
      obtain ⟨c, cs, hl⟩ := List.exists_cons_of_ne_nil hnil
      have hcmem : c ∈ natToDigitsAux i.natAbs i.natAbs := by
        have hm : c ∈ (natToSqlStr i.natAbs).data := by
          rw [hl]
          exact List.mem_cons_self c cs
        rw [natToSqlStr, if_neg h0] at hm
        exact hm
      obtain ⟨d, hd10, hcd⟩ := mem_natToDigitsAux _ _ _ hcmem
      have hdash : c ≠ '-' := by
        rw [hcd]
        exact digitChar_ne_dash d hd10
      rw [hl]
      simp only [intFromChars, if_neg hdash]
      rw [← hl, parseDigits_natToSqlStr]
      show some (((i.natAbs : Nat) : Int)) = some i
      have hv : ((i.natAbs : Nat) : Int) = i := by omega
      rw [hv]
